import Mathlib

/-!
# A next-fit free-list allocator (`alloc.c`)

Shallow embedding of `init_memory_pool`, `alloc` and `dealloc`.

Modelling conventions.

* An address is a natural number, `0` is `NULL`.  Memory is one array of bytes;
  a `size_t` or a pointer is stored in 8 bytes, low byte first.  The `size`
  field of the `chunk_t` at address `c` is the word at `c`, its `next` field is
  the word at `c + 8` (so `sizeof(chunk_t)` is 16), and the `next` field of a
  chunk at `c` is the same word as the `size` field of a chunk at `c + 8`.
* `size_t` arithmetic is reduced modulo `2 ^ 64` where the source can wrap: the
  computation of `adjusted_size`, the address of the remainder in the split and
  the header address in `dealloc`.
* The heap lies between `heap_base`, the break when the process started, and
  the end of the page that holds the current break; the top page of the address
  space is never mapped.  A read or write of a word outside the heap is a
  fault: the call does not return.  (`init_memory_pool` and `dealloc` are not
  checked: the header they write is taken to be mapped.)
* `sbrk` is the environment: a successful call returns the current break and
  moves it by the increment, read as an `intptr_t`; whether a call succeeds is
  decided by the caller of the model (`sbrk_ok`).
* `mutex` is the global lock; `pthread_mutex_lock` sets it, `pthread_mutex_unlock`
  clears it.  `alloc` and `dealloc` describe what a call does once it has
  acquired the lock; `alloc_call` and `dealloc_call` add the wait for the lock,
  which never ends when the lock was left set.
* The `while` loop of `alloc` is run with fuel.  `alloc` is `none` when the
  call does not return: the fuel ran out before the loop ended, or the call
  faulted; `alloc_outcome` tells the two apart.
-/

namespace MemoryAllocator

/-- The header size `sizeof(chunk_t)`: a `size_t` and a pointer, 8 bytes each. -/
def sizeof_chunk_t : Nat := 16

/-- The number of values of a `size_t`. -/
def SIZE_MOD : Nat := 2 ^ 64

/-- The size of a page of memory. -/
def PAGE_SIZE : Nat := 4096

/-- The allocator's globals, the bytes of memory, the break at the start of the
process, the current break and the lock. -/
structure State where
  free_list : Nat
  last_chunk : Nat
  mem : Nat → Nat
  heap_base : Nat
  brk : Nat
  mutex : Bool

/-- The word stored in the 8 bytes from address `a`, low byte first. -/
def load (m : Nat → Nat) (a : Nat) : Nat :=
  m a + 256 * (m (a + 1) + 256 * (m (a + 2) + 256 * (m (a + 3) + 256 * (m (a + 4) +
    256 * (m (a + 5) + 256 * (m (a + 6) + 256 * m (a + 7)))))))

/-- Writing the word `v` into the 8 bytes from address `a`, low byte first.  (A
value of `2 ^ 64` or more, which no `size_t` or pointer is, would keep its high
part in the last byte.) -/
def store (m : Nat → Nat) (a v : Nat) : Nat → Nat :=
  fun x =>
    if x < a then m x
    else if x < a + 7 then v / 256 ^ (x - a) % 256
    else if x = a + 7 then v / 256 ^ 7
    else m x

/-- The field `c->size` of the chunk at address `c`. -/
def State.size (s : State) (c : Nat) : Nat := load s.mem c

/-- The field `c->next` of the chunk at address `c`. -/
def State.next (s : State) (c : Nat) : Nat := load s.mem (c + 8)

/-- The end of the mapped heap: the end of the page that holds the break, and
never the top page of the address space. -/
def mapped_end (s : State) : Nat :=
  min ((s.brk + (PAGE_SIZE - 1)) / PAGE_SIZE * PAGE_SIZE) (SIZE_MOD - PAGE_SIZE)

/-- The word at address `a` lies in the heap. -/
def mapped (s : State) (a : Nat) : Bool :=
  decide (s.heap_base ≤ a ∧ a + 8 ≤ mapped_end s)

/-- Reading the word at `a`; `none` is a fault. -/
def read (s : State) (a : Nat) : Option Nat :=
  if mapped s a then some (load s.mem a) else none

/-- Writing the word at `a`; `none` is a fault. -/
def write (s : State) (a v : Nat) : Option State :=
  if mapped s a then some { s with mem := store s.mem a v } else none

/-- The environment call `sbrk(increment)`: on success the old break is returned
and the break moves by the increment, which is an `intptr_t`: a `size_t` of
`2 ^ 63` or more is a negative increment and lowers the break.  On failure
(`(void *) -1` in C) nothing changes. -/
def sbrk (s : State) (increment : Nat) (ok : Bool) : Option Nat × State :=
  if ok then
    (some s.brk,
      { s with brk := if increment < 2 ^ 63 then s.brk + increment
                      else s.brk - (SIZE_MOD - increment) })
  else (none, s)

/-- Lines 33-44 of `alloc.c`.  The result of `sbrk` is not checked: on failure
the pointer used is `(void *) -1`. -/
def init_memory_pool (s : State) (initial_size : Nat) (sbrk_ok : Bool) : State :=
  let r := sbrk s initial_size sbrk_ok
  let initial_chunk := r.1.getD (SIZE_MOD - 1)
  let s1 := r.2
  let s2 := { s1 with mem := store s1.mem initial_chunk initial_size }
  let s3 := { s2 with mem := store s2.mem (initial_chunk + 8) 0 }
  { s3 with free_list := initial_chunk, last_chunk := initial_chunk }

/-- Lines 55-56: `size + sizeof(chunk_t)`, then `(adjusted_size + 7) & ~7`, both
in `size_t`. -/
def adjusted_size (size : Nat) : Nat :=
  let a := (size + sizeof_chunk_t) % SIZE_MOD
  ((a + 7) % SIZE_MOD) / 8 * 8

/-- How a piece of code ends: with a result, with a fault, or not within the
fuel. -/
inductive Outcome (α : Type) where
  | done (a : α)
  | fault
  | out_of_fuel

/-- The result of an outcome, if it has one. -/
def Outcome.result {α : Type} : Outcome α → Option α
  | Outcome.done a => some a
  | Outcome.fault => none
  | Outcome.out_of_fuel => none

/-- The outcome is a fault. -/
def Outcome.is_fault {α : Type} : Outcome α → Bool
  | Outcome.done _ => false
  | Outcome.fault => true
  | Outcome.out_of_fuel => false

/-- Lines 59-67: the search loop from `chunk` with predecessor `prev_chunk`.
The result is the final `(chunk, prev_chunk)`; `fuel` bounds the number of
times the loop moves to the next chunk; reading `chunk->size` or `chunk->next`
outside the heap is a fault. -/
def search (s : State) (adj : Nat) : Nat → Nat → Nat → Outcome (Nat × Nat)
  | fuel, chunk, prev_chunk =>
    if chunk = 0 then Outcome.done (chunk, prev_chunk)
    else if mapped s chunk = false then Outcome.fault
    else if adj ≤ s.size chunk then Outcome.done (chunk, prev_chunk)
    else if mapped s (chunk + 8) = false then Outcome.fault
    else
      match fuel with
      | 0 => Outcome.out_of_fuel
      | fuel + 1 => search s adj fuel (s.next chunk) chunk

/-- Lines 78-88: format the fresh memory as a chunk, hang it behind
`last_chunk` (or make it the free-list head) and move the cursor to it. -/
def grow (s : State) (new_chunk adj : Nat) : Option State :=
  (write s new_chunk adj).bind fun s1 =>
  (write s1 (new_chunk + 8) 0).bind fun s2 =>
  (if s2.last_chunk = 0 then some { s2 with free_list := new_chunk }
   else write s2 (s2.last_chunk + 8) new_chunk).bind fun s3 =>
  some { s3 with last_chunk := new_chunk }

/-- Lines 95-105: split the suitable chunk when it is larger than needed.  The
remainder's `size` is written before the old `next` of the suitable chunk is
read, as in the source. -/
def split (s : State) (suitable_chunk adj : Nat) : Option State :=
  (read s suitable_chunk).bind fun size =>
  if adj < size then
    (write s ((suitable_chunk + adj) % SIZE_MOD) (size - adj)).bind fun s1 =>
    (read s1 (suitable_chunk + 8)).bind fun next =>
    (write s1 ((suitable_chunk + adj) % SIZE_MOD + 8) next).bind fun s2 =>
    (write s2 suitable_chunk adj).bind fun s3 =>
    write s3 (suitable_chunk + 8) ((suitable_chunk + adj) % SIZE_MOD)
  else some s

/-- Lines 108-118: unlink through `prev_chunk`, move the cursor, unlock. -/
def unlink (s : State) (suitable_chunk prev_chunk : Nat) : Option State :=
  (read s (suitable_chunk + 8)).bind fun next =>
  (if prev_chunk = 0 then some { s with free_list := next }
   else write s (prev_chunk + 8) next).bind fun s1 =>
  some { s1 with last_chunk := suitable_chunk, mutex := false }

/-- What a call of `alloc` gives back: the returned pointer (`0` for `NULL`),
the state it leaves, and the argument of its `sbrk` call when it made one. -/
structure AllocResult where
  ptr : Nat
  state : State
  sbrk_request : Option Nat

/-- Lines 46-123 of `alloc.c`, with the way the call ends. -/
def alloc_outcome (fuel : Nat) (s : State) (size : Nat) (sbrk_ok : Bool) :
    Outcome AllocResult :=
  let s0 := { s with mutex := true }
  let adj := adjusted_size size
  match search s0 adj fuel s0.last_chunk 0 with
  | Outcome.fault => Outcome.fault
  | Outcome.out_of_fuel => Outcome.out_of_fuel
  | Outcome.done (chunk, prev_chunk) =>
    if chunk = 0 then
      match sbrk s0 adj sbrk_ok with
      | (none, s1) => Outcome.done ⟨0, s1, some adj⟩
      | (some new_chunk, s1) =>
        match (grow s1 new_chunk adj).bind (fun s2 =>
            (split s2 new_chunk adj).bind (fun s3 => unlink s3 new_chunk prev_chunk)) with
        | none => Outcome.fault
        | some s4 => Outcome.done ⟨new_chunk + sizeof_chunk_t, s4, some adj⟩
    else
      match (split s0 chunk adj).bind (fun s3 => unlink s3 chunk prev_chunk) with
      | none => Outcome.fault
      | some s4 => Outcome.done ⟨chunk + sizeof_chunk_t, s4, none⟩

/-- Lines 46-123 of `alloc.c`: what the call returns, if it returns. -/
def alloc (fuel : Nat) (s : State) (size : Nat) (sbrk_ok : Bool) : Option AllocResult :=
  (alloc_outcome fuel s size sbrk_ok).result

/-- Line 135: `(char *)ptr - sizeof(chunk_t)`, which wraps modulo `2 ^ 64`. -/
def header_of (ptr : Nat) : Nat := (ptr + (SIZE_MOD - sizeof_chunk_t)) % SIZE_MOD

/-- The address of `chunk->next`, modulo `2 ^ 64`. -/
def next_field (chunk : Nat) : Nat := (chunk + 8) % SIZE_MOD

/-- Lines 125-148 of `alloc.c`.  The early return for `NULL` leaves the lock
set. -/
def dealloc (s : State) (ptr : Nat) : State :=
  let s0 := { s with mutex := true }
  if ptr = 0 then s0
  else
    let chunk := header_of ptr
    let s1 := { s0 with mem := store s0.mem (next_field chunk) s0.free_list }
    let s2 := { s1 with free_list := chunk }
    let s3 :=
      if s2.last_chunk = 0 ∨ s2.last_chunk < chunk then { s2 with last_chunk := chunk }
      else s2
    { s3 with mutex := false }

/-- The process before the allocator is used: both globals `NULL`, the lock
free, the break at `brk0`, and memory holding the bytes `mem0`. -/
def boot (brk0 : Nat) (mem0 : Nat → Nat) : State :=
  { free_list := 0, last_chunk := 0, mem := mem0, heap_base := brk0, brk := brk0,
    mutex := false }

/-- A call made by a client of the allocator. -/
inductive Call where
  | alloc (size : Nat) (sbrk_ok : Bool)
  | dealloc (ptr : Nat)

/-- A client's view while it runs: the allocator state, the pointers it holds
(returned by `alloc`, not yet released) and every non-null pointer `alloc` has
returned so far, most recent first. -/
structure Run where
  state : State
  live : List Nat
  returned : List Nat

/-- The client right after `init_memory_pool`. -/
def start (s : State) : Run := { state := s, live := [], returned := [] }

/-- One call.  `dealloc` is only ever given `NULL` or a pointer that `alloc`
returned earlier; any other call is not part of a run. -/
def step (fuel : Nat) (r : Run) : Call → Option Run
  | Call.alloc size sbrk_ok =>
    match alloc fuel r.state size sbrk_ok with
    | none => none
    | some a =>
      if a.ptr = 0 then some { r with state := a.state }
      else some { state := a.state, live := a.ptr :: r.live, returned := a.ptr :: r.returned }
  | Call.dealloc ptr =>
    if ptr = 0 ∨ ptr ∈ r.returned then
      some { r with state := dealloc r.state ptr, live := r.live.erase ptr }
    else none

/-- A sequence of calls, left to right. -/
def run (fuel : Nat) (r : Run) : List Call → Option Run
  | [] => some r
  | c :: cs =>
    match step fuel r c with
    | none => none
    | some r1 => run fuel r1 cs

/-- The pool of the scenario of the specification: `init_memory_pool(1024)` in a
process whose break is at 4096 and whose memory is zero. -/
def pool1024 : State :=
  init_memory_pool (boot 4096 (fun _ => 0)) 1024 true

/-- A call of `alloc` as a caller sees it while no other call is in progress:
`pthread_mutex_lock` on a lock that is already set blocks, and nobody is left to
clear it, so the call never returns (`none`); on a free lock the call proceeds. -/
def alloc_call (fuel : Nat) (s : State) (size : Nat) (sbrk_ok : Bool) : Option AllocResult :=
  if s.mutex then none else alloc fuel s size sbrk_ok

/-- A call of `dealloc` as a caller sees it while no other call is in progress:
it never returns (`none`) when the lock is already set. -/
def dealloc_call (s : State) (ptr : Nat) : Option State :=
  if s.mutex then none else some (dealloc s ptr)

/-- A pool that ends at a page boundary: `init_memory_pool(4096)` in a process
whose break is at 4096 and whose memory is zero. -/
def pool4096 : State :=
  init_memory_pool (boot 4096 (fun _ => 0)) 4096 true

lemma load_store_same (m : Nat → Nat) (a v : Nat) : load (store m a v) a = v := by
  have e1 : a + 1 - a = 1 := by omega
  have e2 : a + 2 - a = 2 := by omega
  have e3 : a + 3 - a = 3 := by omega
  have e4 : a + 4 - a = 4 := by omega
  have e5 : a + 5 - a = 5 := by omega
  have e6 : a + 6 - a = 6 := by omega
  simp only [load, store, lt_self_iff_false, if_false, Nat.lt_add_one_iff, Nat.sub_self,
    e1, e2, e3, e4, e5, e6, if_true, Nat.lt_add_of_pos_right, Nat.add_lt_add_iff_left,
    Nat.not_lt_zero, add_lt_iff_neg_left, not_lt_zero', Nat.reducePow, Nat.reduceLT,
    Nat.pos_of_ne_zero, pow_zero, Nat.div_one]
  norm_num
  omega

lemma store_outside (m : Nat → Nat) (a v x : Nat) (h : x < a ∨ a + 8 ≤ x) :
    store m a v x = m x := by
  unfold store
  split_ifs <;> first | rfl | omega

lemma load_store_disjoint (m : Nat → Nat) (a v b : Nat) (h : b + 8 ≤ a ∨ a + 8 ≤ b) :
    load (store m a v) b = load m b := by
  have h0 := store_outside m a v b (by omega)
  have h1 := store_outside m a v (b + 1) (by omega)
  have h2 := store_outside m a v (b + 2) (by omega)
  have h3 := store_outside m a v (b + 3) (by omega)
  have h4 := store_outside m a v (b + 4) (by omega)
  have h5 := store_outside m a v (b + 5) (by omega)
  have h6 := store_outside m a v (b + 6) (by omega)
  have h7 := store_outside m a v (b + 7) (by omega)
  unfold load
  rw [h0, h1, h2, h3, h4, h5, h6, h7]


/-! ## Shared lemmas on the phases of `alloc` -/

/-- The three ways a call of `alloc` returns: `NULL` after a failed `sbrk`, a
fresh chunk at the old break, or a chunk found by the search. -/
lemma alloc_shape (fuel : Nat) (s : State) (size : Nat) (ok : Bool) (a : AllocResult)
    (h : alloc fuel s size ok = some a) :
    ∃ chunk prev,
      search { s with mutex := true } (adjusted_size size) fuel s.last_chunk 0
        = Outcome.done (chunk, prev) ∧
      ((chunk = 0 ∧ ok = false ∧
          a = ⟨0, { s with mutex := true }, some (adjusted_size size)⟩) ∨
       (chunk = 0 ∧ ok = true ∧ ∃ s2 s3 s4,
          grow (sbrk { s with mutex := true } (adjusted_size size) true).2 s.brk
            (adjusted_size size) = some s2 ∧
          split s2 s.brk (adjusted_size size) = some s3 ∧
          unlink s3 s.brk prev = some s4 ∧
          a = ⟨s.brk + sizeof_chunk_t, s4, some (adjusted_size size)⟩) ∨
       (chunk ≠ 0 ∧ ∃ s3 s4,
          split { s with mutex := true } chunk (adjusted_size size) = some s3 ∧
          unlink s3 chunk prev = some s4 ∧
          a = ⟨chunk + sizeof_chunk_t, s4, none⟩)) := by
  unfold alloc alloc_outcome at h
  simp only at h
  split at h
  · simp [Outcome.result] at h
  · simp [Outcome.result] at h
  · rename_i chunk prev hs
    refine ⟨chunk, prev, hs, ?_⟩
    split_ifs at h with hc
    · cases ok
      · simp [sbrk, Outcome.result] at h
        exact Or.inl ⟨hc, rfl, h.symm⟩
      · right; left
        refine ⟨hc, rfl, ?_⟩
        simp only [sbrk, if_true] at h ⊢
        split at h
        · simp [Outcome.result] at h
        · rename_i s4 h4
          simp only [Outcome.result, Option.some.injEq] at h
          simp only [Option.bind_eq_some] at h4
          obtain ⟨s2, h2, s3, h3, h5⟩ := h4
          exact ⟨s2, s3, s4, h2, h3, h5, h.symm⟩
    · right; right
      refine ⟨hc, ?_⟩
      split at h
      · simp [Outcome.result] at h
      · rename_i s4 h4
        simp only [Outcome.result, Option.some.injEq] at h
        simp only [Option.bind_eq_some] at h4
        obtain ⟨s3, h3, h5⟩ := h4
        exact ⟨s3, s4, h3, h5, h.symm⟩


lemma adjusted_size_eq (n : Nat) (h : n + 23 < 2 ^ 64) :
    adjusted_size n = (n + 23) / 8 * 8 := by
  unfold adjusted_size sizeof_chunk_t SIZE_MOD
  norm_num at h ⊢
  omega

/-- C1, evaluated on the code: after `init_memory_pool(1024)`, two consecutive
`alloc(20)` calls with no `dealloc` in between both return the pointer 4112, so
the second call hands out a chunk that is still held by the caller; the lock is
free after each call. -/
theorem C1_consecutive_alloc_returns_live_pointer :
    (run 0 (start pool1024) [Call.alloc 20 true]).map
        (fun r => (r.live, r.state.mutex)) = some ([4112], false) ∧
    (run 0 (start pool1024) [Call.alloc 20 true, Call.alloc 20 true]).map
        (fun r => (r.live, r.state.mutex)) = some ([4112, 4112], false) := by
  decide!

/-! ## C2 -/

/-- C2, evaluated on the code: after `init_memory_pool(1024)` and `alloc(1000)`,
which leaves a remainder of 8 bytes at 5112, `p = alloc(2000)` grows the pool
and returns 5136; the unlink then writes `NULL` into the `next` field of the
remainder, which is the `size` field of the chunk of `p`.  After `dealloc(p)`
the call `alloc(2000)` finds size 0 at the cursor, grows the pool again (the
break goes from 7136 to 9152) and returns 7152, not `p`. -/
theorem C2_release_then_alloc_grows_again :
    (run 2 (start pool1024) [Call.alloc 1000 true, Call.alloc 2000 true]).map
        (fun r => (r.live, r.state.brk, r.state.mutex))
      = some ([5136, 4112], 7136, false) ∧
    (run 2 (start pool1024)
        [Call.alloc 1000 true, Call.alloc 2000 true, Call.dealloc 5136,
          Call.alloc 2000 true]).map
        (fun r => (r.live, r.state.brk, r.state.mutex))
      = some ([7152, 4112], 9152, false) := by
  decide!

/-! ## C3 -/

/-- C3, evaluated on the code: after `init_memory_pool(1024)` and `alloc(1000)`,
`alloc(2000)` returns 5136 with the cursor at 5120, but the header at
`5136 - 16` records size 0, not `adjusted_size 2000 = 2016`: the `next` field
of the free 8-byte chunk at 5112 is the same word, and the unlink wrote `NULL`
into it. -/
theorem C3_returned_header_records_zero :
    (run 2 (start pool1024) [Call.alloc 1000 true, Call.alloc 2000 true]).map
        (fun r => (r.returned, r.state.last_chunk, r.state.size (5136 - sizeof_chunk_t),
          adjusted_size 2000))
      = some ([5136, 4112], 5120, 0, 2016) := by
  decide!

/-! ## C4 -/

/-- C4, evaluated on the code: in the pool made by `init_memory_pool(4096)` at
break 4096, which ends at the page boundary 8192, the cursor chunk has 4096
bytes and fits `alloc(4072)` (adjusted size 4088).  The split formats the 8-byte
remainder at 8184 and writes its `next` field at 8192, past the mapped heap:
the call faults and returns nothing. -/
theorem C4_fitting_chunk_but_alloc_faults :
    pool4096.last_chunk = 4096 ∧ pool4096.size 4096 = 4096 ∧ adjusted_size 4072 = 4088 ∧
    pool4096.brk = 8192 ∧ mapped_end pool4096 = 8192 ∧
    (alloc_outcome 0 pool4096 4072 true).is_fault = true ∧
    (alloc 0 pool4096 4072 true).isNone = true := by
  decide!

/-! ## C6 -/

/-- C6, evaluated on the code: after `init_memory_pool(1024)`, `alloc(20)` and
then `alloc(100)`, the second call returns 4152, the payload of the chunk at
4136, and `free_list` is still 4136: the chunk just handed out is the head of
the free list.  (The chunk was found behind the cursor chunk 4096, which is not
on the free list, so the unlink repaired the header at 4096 instead.) -/
theorem C6_returned_chunk_still_free_list_head :
    (run 1 (start pool1024) [Call.alloc 20 true, Call.alloc 100 true]).map
        (fun r => (r.live, r.state.free_list, r.state.last_chunk, r.state.mutex))
      = some ([4152, 4112], 4136, 4136, false) := by
  decide!

/-! ## C8 -/

/-- C8, evaluated on the code: after `init_memory_pool(1024)`, two consecutive
`alloc(0)` calls both return 4112, a pointer the caller has not released. -/
theorem C8_consecutive_alloc_zero_same_pointer :
    (run 0 (start pool1024) [Call.alloc 0 true, Call.alloc 0 true]).map
        (fun r => (r.live, r.state.mutex)) = some ([4112, 4112], false) := by
  decide!

/-! ## C9 -/

/-- C9, evaluated on the code: after `init_memory_pool(1024)`, `alloc(16)`,
`alloc(8)`, `alloc(0)` and `p = alloc(100) = 4136`, the free list is
4112 → 4240 → 4128 and the free chunk 4128 records size 4240.  `dealloc(p)`,
with `c = p - 16 = 4120`, writes `c.next`, the word at 4128: the `size` field
of the other chunk 4128 becomes 4112. -/
theorem C9_release_overwrites_other_header :
    (run 2 (start pool1024)
        [Call.alloc 16 true, Call.alloc 8 true, Call.alloc 0 true, Call.alloc 100 true]).map
        (fun r => (r.live, r.state.free_list, r.state.next 4112, r.state.next 4240,
          r.state.size 4128))
      = some ([4136, 4112, 4112, 4112], 4112, 4240, 4128, 4240) ∧
    (run 2 (start pool1024)
        [Call.alloc 16 true, Call.alloc 8 true, Call.alloc 0 true, Call.alloc 100 true,
          Call.dealloc 4136]).map
        (fun r => (r.state.free_list, r.state.size 4128))
      = some (4120, 4112) := by
  decide!

/-! ## C11 -/

/-- C11, evaluated on the code: `alloc(2000)` on the pool of 1024 bytes, entered
with the lock free and with a failing `sbrk`, returns `NULL` and leaves the lock
set (the `return NULL` of line 75 skips `pthread_mutex_unlock`); the successful
`alloc(20)` returns with the lock free. -/
theorem C11_failed_alloc_returns_with_lock_set :
    pool1024.mutex = false ∧
    (alloc_call 1 pool1024 2000 false).map (fun a => (a.ptr, a.state.mutex))
      = some (0, true) ∧
    (alloc_call 1 pool1024 20 false).map (fun a => (a.ptr, a.state.mutex))
      = some (4112, false) := by
  decide!

/-! ## C14 -/

/-- C14, evaluated on the code: after `init_memory_pool(1024)`, `p = alloc(20)`
and `dealloc(p)` the free list is 4096 → 4136 → `NULL`.  The growing
`alloc(2000)` that follows returns 5136 (chunk 5120) and leaves the free list
4096 → 5120 → `NULL`: the free chunk 4136 is no longer reachable and the chunk
just handed out is. -/
theorem C14_growth_relinks_free_list :
    (run 2 (start pool1024) [Call.alloc 20 true, Call.dealloc 4112]).map
        (fun r => (r.live, r.state.free_list, r.state.next 4096, r.state.next 4136,
          r.state.mutex))
      = some ([], 4096, 4136, 0, false) ∧
    (run 2 (start pool1024)
        [Call.alloc 20 true, Call.dealloc 4112, Call.alloc 2000 true]).map
        (fun r => (r.live, r.state.free_list, r.state.next 4096, r.state.next 5120,
          r.state.mutex))
      = some ([5136], 4096, 5120, 0, false) := by
  decide!

/-! ## C15 -/

/-- C15, evaluated on the code: after `init_memory_pool(1024)`, `alloc(16)`,
`alloc(8)` and `alloc(0)`, the chunk at 4120 records size 4120.  `alloc(100)`
(adjusted size 120) chooses it and returns 4136; afterwards its header records
4240, not 120: the unlink wrote the `next` field of the 8-byte chunk at 4112,
which is the same word. -/
theorem C15_split_chunk_size_overwritten :
    (run 2 (start pool1024)
        [Call.alloc 16 true, Call.alloc 8 true, Call.alloc 0 true]).map
        (fun r => (r.state.size 4120, adjusted_size 100)) = some (4120, 120) ∧
    (run 2 (start pool1024)
        [Call.alloc 16 true, Call.alloc 8 true, Call.alloc 0 true, Call.alloc 100 true]).map
        (fun r => (r.returned, r.state.last_chunk, r.state.size 4120, r.state.size 4240))
      = some ([4136, 4112, 4112, 4112], 4120, 4240, 4000) := by
  decide!

/-! ## C17 -/

/-- C17, evaluated on the code: after `init_memory_pool(1024)`, `alloc(1000)`
splits the chunk of 1024 bytes into 1016 and a remainder of 8 bytes at 5112,
which becomes the free-list head: a free chunk smaller than its own header. -/
theorem C17_split_leaves_free_chunk_below_header_size :
    (run 0 (start pool1024) [Call.alloc 1000 true]).map
        (fun r => (r.live, r.state.free_list, r.state.size r.state.free_list))
      = some ([4112], 5112, 8) := by
  decide!

/-! ## C20 -/

/-- C20, evaluated on the code: 1024 is a multiple of 8 and the requests 1000
and 2000 do not wrap, yet after `init_memory_pool(1024)`, `alloc(1000)` and
`alloc(2000)` the header of the chunk just returned, at 5120, records the size
0, which is not positive. -/
theorem C20_recorded_size_zero :
    1024 % 8 = 0 ∧ 1000 + 23 < 2 ^ 64 ∧ 2000 + 23 < 2 ^ 64 ∧
    (run 2 (start pool1024) [Call.alloc 1000 true, Call.alloc 2000 true]).map
        (fun r => (r.live, r.state.last_chunk, r.state.size r.state.last_chunk))
      = some ([5136, 4112], 5120, 0) := by
  decide!


/-! ## C5 -/

/-- C5: whenever `alloc` returns `NULL`, the free-list head, the cursor, the
`size` and `next` fields of every header and the program break are what they
were before the call. -/
theorem C5_failed_alloc_changes_nothing (fuel : Nat) (s : State) (size : Nat) (ok : Bool)
    (a : AllocResult) (h : alloc fuel s size ok = some a) (hp : a.ptr = 0) :
    a.state.free_list = s.free_list ∧ a.state.last_chunk = s.last_chunk ∧
    a.state.size = s.size ∧ a.state.next = s.next ∧ a.state.brk = s.brk := by
  obtain ⟨chunk, prev, -, hcase⟩ := alloc_shape fuel s size ok a h
  rcases hcase with ⟨-, -, rfl⟩ | ⟨-, -, s2, s3, s4, -, -, -, rfl⟩ | ⟨-, s3, s4, -, -, rfl⟩
  · exact ⟨rfl, rfl, rfl, rfl, rfl⟩
  · simp [sizeof_chunk_t] at hp
  · simp [sizeof_chunk_t] at hp

/-- C5 at `alloc(2000)` on the pool of 1024 bytes with a failing `sbrk`. -/
theorem C5_failed_alloc_changes_nothing_witness :
    ∃ a, alloc 1 pool1024 2000 false = some a ∧ a.ptr = 0 ∧
      a.state.free_list = pool1024.free_list ∧ a.state.last_chunk = pool1024.last_chunk ∧
      a.state.size = pool1024.size ∧ a.state.next = pool1024.next ∧
      a.state.brk = pool1024.brk := by
  have hsome : (alloc 1 pool1024 2000 false).isSome = true := by decide!
  have hm : (alloc 1 pool1024 2000 false).map (fun r => r.ptr) = some 0 := by decide!
  obtain ⟨a, h1⟩ := Option.isSome_iff_exists.mp hsome
  have hptr : a.ptr = 0 := by rw [h1] at hm; simpa using hm
  exact ⟨a, h1, hptr, C5_failed_alloc_changes_nothing 1 pool1024 2000 false a h1 hptr⟩

/-! ## C10 -/

/-- C10: `dealloc(NULL)` leaves `free_list`, `last_chunk`, every header and the
break unchanged; so after `init_memory_pool(n)` (whose `sbrk` succeeded at break
`s.brk`) and any number `k` of `dealloc(NULL)` calls, `free_list` and
`last_chunk` are the chunk at the pool base, whose `size` is `n` and whose
`next` is `NULL` (the lock, which the first such call leaves set, aside). -/
theorem C10_null_release_keeps_pool :
    (∀ s : State, (dealloc s 0).free_list = s.free_list ∧
      (dealloc s 0).last_chunk = s.last_chunk ∧ (dealloc s 0).size = s.size ∧
      (dealloc s 0).next = s.next ∧ (dealloc s 0).brk = s.brk) ∧
    (∀ (s : State) (n k : Nat),
      ((fun t => dealloc t 0)^[k] (init_memory_pool s n true)).free_list = s.brk ∧
      ((fun t => dealloc t 0)^[k] (init_memory_pool s n true)).last_chunk = s.brk ∧
      ((fun t => dealloc t 0)^[k] (init_memory_pool s n true)).size s.brk = n ∧
      ((fun t => dealloc t 0)^[k] (init_memory_pool s n true)).next s.brk = 0 ∧
      ((fun t => dealloc t 0)^[k] (init_memory_pool s n true)).size =
        (init_memory_pool s n true).size ∧
      ((fun t => dealloc t 0)^[k] (init_memory_pool s n true)).next =
        (init_memory_pool s n true).next) := by
  have h1 : ∀ s : State, (dealloc s 0).free_list = s.free_list ∧
      (dealloc s 0).last_chunk = s.last_chunk ∧ (dealloc s 0).size = s.size ∧
      (dealloc s 0).next = s.next ∧ (dealloc s 0).brk = s.brk :=
    fun s => ⟨rfl, rfl, rfl, rfl, rfl⟩
  refine ⟨h1, fun s n k => ?_⟩
  induction k with
  | zero =>
    simp only [Function.iterate_zero, id_eq, and_true]
    refine ⟨by simp [init_memory_pool, sbrk], by simp [init_memory_pool, sbrk], ?_, ?_⟩
    · show load (store (store s.mem s.brk n) (s.brk + 8) 0) s.brk = n
      rw [load_store_disjoint _ _ _ _ (Or.inl (le_refl _)), load_store_same]
    · show load (store (store s.mem s.brk n) (s.brk + 8) 0) (s.brk + 8) = 0
      rw [load_store_same]
  | succ k ih =>
    rw [Function.iterate_succ_apply']
    obtain ⟨a, b, c, d, e, f⟩ := ih
    obtain ⟨g1, g2, g3, g4, -⟩ := h1 ((fun t => dealloc t 0)^[k] (init_memory_pool s n true))
    rw [g1, g2, g3, g4]
    exact ⟨a, b, c, d, e, f⟩

/-! ## C12 -/

/-- C12: `dealloc(NULL)` entered with the lock free returns with the lock set,
after which no call of `alloc` or `dealloc` gets past `pthread_mutex_lock`;
`dealloc(p)` for a non-null `p` returns with the lock free. -/
theorem C12_null_release_leaves_lock_set (s : State) (hfree : s.mutex = false) :
    (∃ t, dealloc_call s 0 = some t ∧ t.mutex = true ∧
      (∀ fuel size ok, alloc_call fuel t size ok = none) ∧
      (∀ p, dealloc_call t p = none)) ∧
    (∀ p, p ≠ 0 → ∃ t, dealloc_call s p = some t ∧ t.mutex = false) := by
  constructor
  · refine ⟨dealloc s 0, by simp [dealloc_call, hfree], rfl, ?_, ?_⟩
    · intro fuel size ok
      simp [alloc_call, dealloc]
    · intro p
      simp [dealloc_call, dealloc]
  · intro p hp
    refine ⟨dealloc s p, by simp [dealloc_call, hfree], ?_⟩
    unfold dealloc
    rw [if_neg hp]

/-- C12 on the pool of 1024 bytes. -/
theorem C12_null_release_leaves_lock_set_witness :
    (∃ t, dealloc_call pool1024 0 = some t ∧ t.mutex = true ∧
      (∀ fuel size ok, alloc_call fuel t size ok = none) ∧
      (∀ p, dealloc_call t p = none)) ∧
    (∀ p, p ≠ 0 → ∃ t, dealloc_call pool1024 p = some t ∧ t.mutex = false) :=
  C12_null_release_leaves_lock_set pool1024 (by decide!)

/-! ## C18 -/

/-- C18: for a `size_t` request, `adjusted_size` is `(size + 16 + 7) mod 2^64`
with the low three bits cleared; up to `2^64 - 24` it is the least multiple of 8
that is at least `size + 16`; above, it wraps to 0, 8 or 16, below `size`; and
`alloc(2^64 - 1)` on the pool of 1024 bytes returns the non-null 4112, whose
header records 16 bytes. -/
theorem C18_adjusted_size_wraps (size : Nat) (hs : size < 2 ^ 64) :
    adjusted_size size = ((size + 16 + 7) % 2 ^ 64) / 8 * 8 ∧
    (size ≤ 2 ^ 64 - 24 →
      adjusted_size size % 8 = 0 ∧ size + 16 ≤ adjusted_size size ∧
      ∀ k, k % 8 = 0 → size + 16 ≤ k → adjusted_size size ≤ k) ∧
    (2 ^ 64 - 24 < size →
      (adjusted_size size = 0 ∨ adjusted_size size = 8 ∨ adjusted_size size = 16) ∧
      adjusted_size size < size) ∧
    (alloc 0 pool1024 (2 ^ 64 - 1) true).map
        (fun a => (a.ptr, a.state.size (a.ptr - sizeof_chunk_t), 2 ^ 64 - 1))
      = some (4112, 16, 18446744073709551615) := by
  have e : (2 : Nat) ^ 64 = 18446744073709551616 := by norm_num
  refine ⟨?_, ?_, ?_, by decide!⟩
  · simp only [adjusted_size, sizeof_chunk_t, SIZE_MOD, e] at hs ⊢
    omega
  · simp only [adjusted_size, sizeof_chunk_t, SIZE_MOD, e] at hs ⊢
    intro h
    refine ⟨by omega, by omega, ?_⟩
    intro k hk1 hk2
    omega
  · simp only [adjusted_size, sizeof_chunk_t, SIZE_MOD, e] at hs ⊢
    intro h
    omega

/-- C18 at the largest request, `2^64 - 1`, whose adjusted size is 16. -/
theorem C18_adjusted_size_wraps_witness :
    adjusted_size (2 ^ 64 - 1) = 16 ∧ adjusted_size (2 ^ 64 - 1) < 2 ^ 64 - 1 := by
  have h := C18_adjusted_size_wraps (2 ^ 64 - 1) (by norm_num)
  refine ⟨by decide!, (h.2.2.1 (by norm_num)).2⟩

/-! ## C19 -/

lemma search_self_loop (s : State) (adj c : Nat) (hc : c ≠ 0) (hm1 : mapped s c = true)
    (hs : s.size c < adj) (hm2 : mapped s (c + 8) = true) (hn : s.next c = c) :
    ∀ fuel prev, search s adj fuel c prev = Outcome.out_of_fuel := by
  intro fuel
  induction fuel with
  | zero =>
    intro prev
    unfold search
    simp [hc, hm1, hm2, Nat.not_le.mpr hs]
  | succ k ih =>
    intro prev
    unfold search
    simp only [hc, hm1, hm2, Nat.not_le.mpr hs, if_false, hn, Bool.true_eq_false]
    exact ih c

lemma alloc_none_of_out_of_fuel (fuel : Nat) (s : State) (size : Nat) (ok : Bool)
    (h : search { s with mutex := true } (adjusted_size size) fuel s.last_chunk 0
      = Outcome.out_of_fuel) :
    alloc fuel s size ok = none := by
  unfold alloc alloc_outcome
  simp only [h, Outcome.result]

/-- C19, evaluated on the code: after `init_memory_pool(1024)` two `alloc(20)`
calls both return 4112, so the caller holds it twice and releases it twice,
once per return.  The second `dealloc(4112)` stores the free-list head 4096
into the `next` field of 4096: the free list and the cursor chain are the cycle
4096 → 4096, and the search loop of a following `alloc(2000)` runs out of any
amount of fuel. -/
theorem C19_double_return_makes_cycle :
    (run 0 (start pool1024) [Call.alloc 20 true, Call.alloc 20 true]).map
        (fun r => r.live) = some [4112, 4112] ∧
    ∃ r, run 0 (start pool1024)
        [Call.alloc 20 true, Call.alloc 20 true, Call.dealloc 4112, Call.dealloc 4112]
        = some r ∧
      r.live = [] ∧ r.state.free_list = 4096 ∧ r.state.last_chunk = 4096 ∧
      r.state.next 4096 = 4096 ∧ r.state.mutex = false ∧
      ∀ fuel ok, alloc fuel r.state 2000 ok = none := by
  refine ⟨by decide!, ?_⟩
  have hsome : (run 0 (start pool1024)
      [Call.alloc 20 true, Call.alloc 20 true, Call.dealloc 4112,
        Call.dealloc 4112]).isSome = true := by decide!
  have hm : (run 0 (start pool1024)
      [Call.alloc 20 true, Call.alloc 20 true, Call.dealloc 4112, Call.dealloc 4112]).map
      (fun r => (r.live, [r.state.free_list, r.state.last_chunk, r.state.next 4096,
        r.state.size 4096], [r.state.mutex, mapped r.state 4096, mapped r.state 4104]))
      = some ([], [4096, 4096, 4096, 40], [false, true, true]) := by
    decide!
  obtain ⟨r, h1⟩ := Option.isSome_iff_exists.mp hsome
  rw [h1] at hm
  simp only [Option.map_some', Option.some.injEq, Prod.mk.injEq, List.cons.injEq,
    and_true] at hm
  obtain ⟨hlive, ⟨hfree, hlast, hnext, hsize⟩, hmutex, hm1, hm2⟩ := hm
  refine ⟨r, h1, hlive, hfree, hlast, hnext, hmutex, ?_⟩
  intro fuel ok
  have hadj : adjusted_size 2000 = 2016 := by decide!
  have hloop : search { r.state with mutex := true } (adjusted_size 2000) fuel
      r.state.last_chunk 0 = Outcome.out_of_fuel := by
    rw [hadj, hlast]
    exact search_self_loop { r.state with mutex := true } 2016 4096 (by decide)
      hm1 (by show r.state.size 4096 < 2016; rw [hsize]; decide) hm2 hnext fuel 0
  exact alloc_none_of_out_of_fuel fuel r.state 2000 ok hloop


/-! ## C13 -/

end MemoryAllocator
